import Mathlib

/-!
Shallow embedding of the Invoice-Generator application (src/app.py).

The program is a Streamlit app that composes an invoice/quote PDF with
ReportLab.  The embedding below models, faithfully to the source:

* line items and the per-line / aggregate monetary arithmetic of
  `create_modern_invoice_pdf` (src/app.py lines 298-335);
* the two-decimal display formatting `f"{x:.2f}"` used for all monetary
  cells.  CPython formats the binary double nearest to the value; at a
  decimal tie that is exactly representable as a double (such as 0.125)
  this rounds half-to-even.  Monetary values are modelled as exact
  rationals; every concrete value appearing in a theorem below is exactly
  representable as a double, so the rational model and the float code
  agree on those inputs;
* the Arabic shaping helper `reshape_if_arabic` (lines 145-154).  The
  external libraries `arabic_reshaper.reshape` and `bidi.get_display` are
  passed as function parameters; on strings containing no Arabic letters
  both libraries are the identity;
* the language dictionaries `LANGUAGES` (lines 33-133), verbatim;
* the composed "story" of the PDF: header HTML, party blocks, the item
  table data and its `TableStyle` commands, and the optional trailing
  blocks (lines 159-382);
* the download-button handler of `main` (lines 511-528) and the bounds
  the add-item form enforces through its widgets (lines 446-459).
-/

-- Batteries marks the arithmetic on `Rat` irreducible; lift that so the
-- theorems below about concrete monetary values evaluate definitionally.
unseal Rat.mul Rat.add Rat.sub Rat.inv Rat.ofScientific

namespace InvoiceGen

/-- Python `str.strip()` with no argument: remove whitespace from both
ends of the string.  Implemented structurally so it evaluates inside
proofs. -/
def pyStrip (s : String) : String :=
  String.mk
    (((s.data.dropWhile Char.isWhitespace).reverse.dropWhile
        Char.isWhitespace).reverse)

/-- Python `str.upper()`: upper-case every cased letter and leave the
rest (Arabic letters included) unchanged.  Implemented structurally so
it evaluates inside proofs. -/
def pyUpper (s : String) : String :=
  String.mk (s.data.map Char.toUpper)

/-- A line item as collected by the form: description, quantity
(a Python int), unit price and VAT rate (Python floats, modelled as
exact rationals). -/
structure Item where
  description : String
  quantity : Int
  unit_price : ℚ
  vat_rate : ℚ
deriving Repr, DecidableEq

/-- Per-line arithmetic of src/app.py lines 306-308:
`subtotal = quantity * unit_price`,
`vat_amount = subtotal * (vat_rate / 100)`,
`line_total = subtotal + vat_amount`.
Returns (subtotal, vat_amount, line_total). -/
def computeLine (it : Item) : ℚ × ℚ × ℚ :=
  let subtotal : ℚ := (it.quantity : ℚ) * it.unit_price
  let vat_amount : ℚ := subtotal * (it.vat_rate / 100)
  (subtotal, vat_amount, subtotal + vat_amount)

/-- Aggregate `total_without_vat`: the running sum of all line subtotals
(src/app.py lines 299, 310). -/
def total_without_vat (items : List Item) : ℚ :=
  (items.map (fun it => (computeLine it).1)).sum

/-- Aggregate `total_vat`: the running sum of all line VAT amounts
(src/app.py lines 300, 311). -/
def total_vat (items : List Item) : ℚ :=
  (items.map (fun it => (computeLine it).2.1)).sum

/-- Aggregate `grand_total = total_without_vat + total_vat`
(src/app.py line 325). -/
def grand_total (items : List Item) : ℚ :=
  total_without_vat items + total_vat items

/-- Round a rational to the nearest integer, ties to even.  This is how
CPython renders a binary double with `"%.2f"` when the scaled value is an
exact tie representable in binary (correct rounding of the double's exact
value, which uses round-half-even at ties). -/
def roundHalfEven (x : ℚ) : ℤ :=
  let f : ℤ := ⌊x⌋
  let frac : ℚ := x - f
  if frac < 1/2 then f
  else if 1/2 < frac then f + 1
  else if f % 2 = 0 then f else f + 1

/-- The display formatting `f"{x:.2f}"` of src/app.py (lines 316, 318,
319, 332, 333, 334) on an exactly-representable value: scale by 100,
round to nearest (ties to even), print with two fractional digits; the
sign comes from the value itself (CPython prints "-0.00" for a negative
value that rounds to zero). -/
def formatTwo (x : ℚ) : String :=
  let n : ℤ := roundHalfEven (100 * x)
  let m : ℕ := n.natAbs
  (if x < 0 then "-" else "") ++ toString (m / 100) ++ "." ++
    (if m % 100 < 10 then "0" else "") ++ toString (m % 100)

/-- Round a rational to the nearest integer, ties away from zero.
Written from the specification's words ("standard
round-half-away-from-zero"), to be compared with the source's
`formatTwo`. -/
def roundHalfAwayFromZero (x : ℚ) : ℤ :=
  if 0 ≤ x then ⌊x + 1/2⌋ else -⌊-x + 1/2⌋

/-- Two-decimal formatting with ties away from zero.  Written from the
specification's words, to be compared with the source's `formatTwo`. -/
def formatTwoHalfAway (x : ℚ) : String :=
  let n : ℤ := roundHalfAwayFromZero (100 * x)
  let m : ℕ := n.natAbs
  (if x < 0 then "-" else "") ++ toString (m / 100) ++ "." ++
    (if m % 100 < 10 then "0" else "") ++ toString (m % 100)

/-- Smallest number of decimal digits after the point needed to write
the rational exactly, if at most 17 suffice. -/
def pyFracDigits (x : ℚ) : Option ℕ :=
  (List.range 18).find? (fun k => (x * (10:ℚ)^k).den = 1)

/-- Pad a digit string with leading zeros to length k. -/
def padZeros (k : ℕ) (s : String) : String :=
  String.mk (List.replicate (k - s.length) '0') ++ s

/-- CPython `str` of a float whose value is an exact short decimal (the
repr of a double is the shortest decimal rounding to it, so for a
user-entered short decimal it is the entered number).  Used for the VAT
rate cell `f"{item['vat_rate']}%"` (src/app.py line 317): `str(19.0)`
is "19.0", `str(12.5)` is "12.5". -/
def pyFloatStr (x : ℚ) : String :=
  let a : ℚ := |x|
  let sign : String := if x < 0 then "-" else ""
  match pyFracDigits a with
  | some 0 => sign ++ toString a.num ++ ".0"
  | some k =>
      let n : ℕ := (a * (10:ℚ)^k).num.toNat
      let p : ℕ := 10^k
      sign ++ toString (n / p) ++ "." ++ padZeros k (toString (n % p))
  | none => sign ++ toString a.num ++ "/" ++ toString a.den

/-- The shaping helper of src/app.py lines 145-154.  The external
libraries are parameters: `reshape` is `arabic_reshaper.reshape` and
`display` is `bidi.algorithm.get_display`.  The source reshapes and
reorders only when the language is "ar" and the stripped text is
non-empty (`if lang == "ar" and text.strip():`); otherwise it returns
the text as-is. -/
def reshape_if_arabic (reshape display : String → String)
    (text lang : String) : String :=
  if lang = "ar" ∧ pyStrip text ≠ "" then display (reshape text) else text

/-- The English dictionary, `LANGUAGES["en"]` of src/app.py lines 34-66,
verbatim, as an association list in source order. -/
def LANGUAGES_en : List (String × String) :=
  [("document_type_label", "Document Type"),
   ("invoice", "Invoice"),
   ("quote", "Quote"),
   ("number", "Number"),
   ("date", "Date"),
   ("due_date", "Due Date"),
   ("from", "From"),
   ("to", "To"),
   ("tax_id", "Tax ID"),
   ("mobile", "Mobile"),
   ("email", "Email"),
   ("details", "Details"),
   ("description", "Description"),
   ("quantity", "Quantity"),
   ("unit_price", "Unit Price"),
   ("vat_rate", "VAT (%)"),
   ("vat_amount", "VAT Amount"),
   ("total", "Total"),
   ("subtotal", "Subtotal"),
   ("total_vat", "Total VAT"),
   ("payment_terms", "Payment Terms"),
   ("delivery_terms", "Delivery Terms"),
   ("accept_checks", "Accept Checks?"),
   ("services_products", "Services / Products"),
   ("add", "Add"),
   ("remove", "Remove"),
   ("download", "Download"),
   ("supplier_info", "Supplier Information (From)"),
   ("customer_info", "Customer Information (To)"),
   ("document_info", "Document Information"),
   ("additional_info", "Additional Information")]

/-- The French dictionary, `LANGUAGES["fr"]` of src/app.py lines 67-99,
verbatim, as an association list in source order. -/
def LANGUAGES_fr : List (String × String) :=
  [("document_type_label", "Type de Document"),
   ("invoice", "Facture"),
   ("quote", "Devis"),
   ("number", "Numéro"),
   ("date", "Date"),
   ("due_date", "Date d’échéance"),
   ("from", "De"),
   ("to", "A"),
   ("tax_id", "Identifiant Fiscal"),
   ("mobile", "Mobile"),
   ("email", "Email"),
   ("details", "Détails"),
   ("description", "Description"),
   ("quantity", "Quantité"),
   ("unit_price", "Prix Unitaire"),
   ("vat_rate", "TVA (%)"),
   ("vat_amount", "Montant TVA"),
   ("total", "Total"),
   ("subtotal", "Sous Total"),
   ("total_vat", "TVA"),
   ("payment_terms", "Conditions de Paiement"),
   ("delivery_terms", "Conditions de Livraison"),
   ("accept_checks", "Accepter les chèques ?"),
   ("services_products", "Services / Produits"),
   ("add", "Ajouter"),
   ("remove", "Supprimer"),
   ("download", "Télécharger"),
   ("supplier_info", "Informations Fournisseur (De)"),
   ("customer_info", "Informations Client (A)"),
   ("document_info", "Informations du Document"),
   ("additional_info", "Informations Supplémentaires")]

/-- The Arabic dictionary, `LANGUAGES["ar"]` of src/app.py lines 100-132,
verbatim, as an association list in source order. -/
def LANGUAGES_ar : List (String × String) :=
  [("document_type_label", "نوع المستند"),
   ("invoice", "فاتورة"),
   ("quote", "عرض سعر"),
   ("number", "الرقم"),
   ("date", "التاريخ"),
   ("due_date", "تاريخ الاستحقاق"),
   ("from", "من"),
   ("to", "إلى"),
   ("tax_id", "الرقم الضريبي"),
   ("mobile", "رقم الجوال"),
   ("email", "البريد الإلكتروني"),
   ("details", "التفاصيل"),
   ("description", "الوصف"),
   ("quantity", "الكمية"),
   ("unit_price", "سعر الوحدة"),
   ("vat_rate", "نسبة الضريبة"),
   ("vat_amount", "مبلغ الضريبة"),
   ("total", "الإجمالي"),
   ("subtotal", "الإجمالي الفرعي"),
   ("total_vat", "مجموع الضريبة"),
   ("payment_terms", "شروط الدفع"),
   ("delivery_terms", "شروط التسليم"),
   ("accept_checks", "قبول الشيكات؟"),
   ("services_products", "الخدمات / المنتجات"),
   ("add", "إضافة"),
   ("remove", "إزالة"),
   ("download", "تحميل"),
   ("supplier_info", "معلومات المورد (من)"),
   ("customer_info", "معلومات العميل (إلى)"),
   ("document_info", "معلومات المستند"),
   ("additional_info", "معلومات إضافية")]

/-- The `LANGUAGES` table of src/app.py lines 33-133: the three
supported dictionaries keyed by language code. -/
def LANGUAGES : List (String × List (String × String)) :=
  [("en", LANGUAGES_en), ("fr", LANGUAGES_fr), ("ar", LANGUAGES_ar)]

/-- A Python dictionary lookup `lang_dict[key]` as a total function.
Every key the composer looks up is present in all three dictionaries,
so the `""` default never fires on the source's lookups. -/
def dictOf (l : List (String × String)) : String → String :=
  fun k => ((l.lookup k).getD "")

/-- The data dict handed to `create_modern_invoice_pdf` (src/app.py
lines 485-501).  Dates are modelled as their already-formatted
"%d/%m/%Y" strings (`None` as `none`); the logo as a presence flag. -/
structure DocData where
  doc_type : String
  supplier_name : String
  supplier_address : String
  supplier_tax_id : String
  supplier_mobile : String
  supplier_email : String
  logo : Bool
  customer_name : String
  customer_address : String
  invoice_number : String
  invoice_date : Option String
  invoice_due_date : Option String
  payment_terms : String
  delivery_terms : String
  accept_checks : Bool
deriving Repr, DecidableEq

/-- `date_time_str` of src/app.py lines 211-212: the formatted invoice
date (empty when absent) followed by a space and the current clock time
`datetime.now().strftime("%H:%M")`, passed in as `nowHM`. -/
def date_time_str (invoice_date : Option String) (nowHM : String) : String :=
  (invoice_date.getD "") ++ " " ++ nowHM

/-- One row of the item table (src/app.py lines 313-320): shaped
description, `str(quantity)`, `f"{unit_price:.2f}"`,
`f"{vat_rate}%"`, `f"{vat_amount:.2f}"`, `f"{line_total:.2f}"`. -/
def itemRow (reshape display : String → String) (lang : String)
    (it : Item) : List String :=
  [reshape_if_arabic reshape display it.description lang,
   toString it.quantity,
   formatTwo it.unit_price,
   pyFloatStr it.vat_rate ++ "%",
   formatTwo (computeLine it).2.1,
   formatTwo (computeLine it).2.2]

/-- The full `items_data` list of src/app.py lines 294-335: the shaped
six-label header row, one row per item, then the subtotal, total-VAT and
grand-total rows (label cell `lbl + ":"` in column 5, value in
column 6). -/
def buildItemsData (reshape display : String → String)
    (lang_dict : String → String) (lang : String)
    (items : List Item) : List (List String) :=
  let shape := fun t => reshape_if_arabic reshape display t lang
  ([shape (lang_dict "description"), shape (lang_dict "quantity"),
    shape (lang_dict "unit_price"), shape (lang_dict "vat_rate"),
    shape (lang_dict "vat_amount"), shape (lang_dict "total")] ::
   items.map (itemRow reshape display lang)) ++
  [["", "", "", "", shape (lang_dict "subtotal") ++ ":",
    formatTwo (total_without_vat items)],
   ["", "", "", "", shape (lang_dict "total_vat") ++ ":",
    formatTwo (total_vat items)],
   ["", "", "", "", shape (lang_dict "total") ++ ":",
    formatTwo (grand_total items)]]

/-- A ReportLab `TableStyle` command, with the (col, row) coordinate
pairs exactly as written in the source (negative indices count from the
end, as in Python). -/
inductive StyleCmd where
  | background (c0 r0 c1 r1 : Int) (color : String)
  | textcolor (c0 r0 c1 r1 : Int) (color : String)
  | align (c0 r0 c1 r1 : Int) (mode : String)
  | fontname (c0 r0 c1 r1 : Int) (font : String)
  | fontsize (c0 r0 c1 r1 : Int) (size : ℕ)
  | bottompadding (c0 r0 c1 r1 : Int) (pad : ℕ)
  | valign (c0 r0 c1 r1 : Int) (mode : String)
  | grid (c0 r0 c1 r1 : Int) (width : ℚ) (color : String)
  | lineabove (c0 r0 c1 r1 : Int) (width : ℚ) (color : String)
deriving Repr, DecidableEq

/-- The item table's `TableStyle` of src/app.py lines 338-354,
command for command in source order. -/
def itemsTableStyle (primary_color font_name : String) : List StyleCmd :=
  [.background 0 0 (-1) 0 primary_color,
   .textcolor 0 0 (-1) 0 "whitesmoke",
   .align 0 0 (-1) 0 "CENTER",
   .fontname 0 0 (-1) 0 font_name,
   .fontsize 0 0 (-1) 0 12,
   .bottompadding 0 0 (-1) 0 12,
   .align 1 1 (-1) (-1) "RIGHT",
   .grid 0 0 (-1) (-2) (1/2) "#CCCCCC",
   .fontname (-2) (-3) (-1) (-1) font_name,
   .lineabove (-2) (-3) (-1) (-3) 1 primary_color]

/-- Resolve a possibly-negative Python/ReportLab index against a table
of `n` rows (or columns): `-1` is the last row, `-2` the
second-to-last, and so on. -/
def resolveIdx (n : ℕ) (i : Int) : Int :=
  if i < 0 then n + i else i

/-- Whether a style command is a GRID command. -/
def StyleCmd.isGrid : StyleCmd → Bool
  | .grid _ _ _ _ _ _ => true
  | _ => false

/-- Whether a style command is a LINEABOVE command. -/
def StyleCmd.isLineAbove : StyleCmd → Bool
  | .lineabove _ _ _ _ _ _ => true
  | _ => false

/-- Whether a style command is a BACKGROUND command with the given
color. -/
def StyleCmd.isBackgroundColored (col : String) : StyleCmd → Bool
  | .background _ _ _ _ c => c = col
  | _ => false

/-- Whether a style command is a TEXTCOLOR command with the given
color. -/
def StyleCmd.isTextColored (col : String) : StyleCmd → Bool
  | .textcolor _ _ _ _ c => c = col
  | _ => false

/-- The row span (r0, r1) of a style command, as written. -/
def StyleCmd.rowSpan : StyleCmd → Int × Int
  | .background _ r0 _ r1 _ => (r0, r1)
  | .textcolor _ r0 _ r1 _ => (r0, r1)
  | .align _ r0 _ r1 _ => (r0, r1)
  | .fontname _ r0 _ r1 _ => (r0, r1)
  | .fontsize _ r0 _ r1 _ => (r0, r1)
  | .bottompadding _ r0 _ r1 _ => (r0, r1)
  | .valign _ r0 _ r1 _ => (r0, r1)
  | .grid _ r0 _ r1 _ _ => (r0, r1)
  | .lineabove _ r0 _ r1 _ _ => (r0, r1)

/-- Whether a style command applies to row `r` of a table with
`nRows` rows, after resolving negative indices. -/
def StyleCmd.appliesToRow (nRows : ℕ) (cmd : StyleCmd) (r : ℕ) : Bool :=
  resolveIdx nRows cmd.rowSpan.1 ≤ (r : Int) ∧
    (r : Int) ≤ resolveIdx nRows cmd.rowSpan.2

/-- Whether some command of the style satisfying `p` applies to row
`r` of an `nRows`-row table. -/
def styleHasOnRow (p : StyleCmd → Bool) (style : List StyleCmd)
    (nRows : ℕ) (r : ℕ) : Bool :=
  style.any (fun c => p c && c.appliesToRow nRows r)

/-- The document-type title as placed in the header HTML: the shaped
title with `.upper()` applied (src/app.py lines 205 and 226,
`doc_title = reshape_if_arabic(data["doc_type"], lang_choice)` then
the interpolation of `doc_title.upper()`). -/
def docTitleDisplayed (reshape display : String → String)
    (doc_type lang : String) : String :=
  pyUpper (reshape_if_arabic reshape display doc_type lang)

/-- The accept-checks affirmation paragraph of src/app.py line 377:
`f"<b>{label_ac}</b> {reshape_if_arabic('Yes', lang_choice)}"`. -/
def acceptChecksLine (reshape display : String → String)
    (label_ac lang : String) : String :=
  "<b>" ++ label_ac ++ "</b> " ++ reshape_if_arabic reshape display "Yes" lang

/-- The composed story of one PDF render: every text fragment and table
the source appends to `story` in `create_modern_invoice_pdf`
(src/app.py lines 159-382), in source structure.  The HTML strings keep
the source's interpolated fragments and tags (the surrounding
triple-quote whitespace is elided). -/
structure PdfStory where
  font_name : String
  headerHtml : String
  supplierHtml : String
  customerHtml : String
  detailsLabel : String
  itemsData : List (List String)
  tableStyle : List StyleCmd
  paymentBlock : Option (String × String)
  deliveryBlock : Option (String × String)
  acceptBlock : Option String
deriving Repr, DecidableEq

/-- The composition pipeline `create_modern_invoice_pdf` of src/app.py
lines 159-382 as a function of its five arguments plus the two external
shaping functions and the wall-clock "%H:%M" string the source reads
via `datetime.now()` (line 212).  Conditional trailing blocks follow the
source's truthiness tests (`if data['payment_terms']:` is non-empty,
line 358; `if data['delivery_terms']:`, line 366; `if
data['accept_checks']:`, line 374). -/
def create_modern_invoice_pdf (reshape display : String → String)
    (data : DocData) (items : List Item) (lang_dict : String → String)
    (primary_color lang_choice nowHM : String) : PdfStory :=
  let shape := fun t => reshape_if_arabic reshape display t lang_choice
  let font_name := if lang_choice = "ar" then "Amiri" else "Helvetica"
  let due_date_str := data.invoice_due_date.getD ""
  { font_name := font_name
    headerHtml :=
      "<font color=\"" ++ primary_color ++ "\" size=\"18\"><b>" ++
        docTitleDisplayed reshape display data.doc_type lang_choice ++
        "</b></font><br/><font color=\"#666666\">" ++
        shape (lang_dict "number") ++ ": " ++ shape data.invoice_number ++
        "<br/>" ++
        shape (lang_dict "date") ++ ": " ++
        shape (date_time_str data.invoice_date nowHM) ++ "<br/>" ++
        shape (lang_dict "due_date") ++ ": " ++ shape due_date_str ++
        "</font>"
    supplierHtml :=
      "<font color=\"" ++ primary_color ++ "\"><b>" ++
        shape (lang_dict "from") ++ ":</b></font><br/>" ++
        shape data.supplier_name ++ "<br/>" ++
        shape data.supplier_address ++ "<br/>" ++
        shape (lang_dict "tax_id") ++ ": " ++ shape data.supplier_tax_id ++
        "<br/>" ++
        shape (lang_dict "mobile") ++ ": " ++ shape data.supplier_mobile ++
        "<br/>" ++
        shape (lang_dict "email") ++ ": " ++ shape data.supplier_email
    customerHtml :=
      "<font color=\"" ++ primary_color ++ "\"><b>" ++
        shape (lang_dict "to") ++ ":</b></font><br/>" ++
        shape data.customer_name ++ "<br/>" ++
        shape data.customer_address
    detailsLabel := shape (lang_dict "details")
    itemsData := buildItemsData reshape display lang_dict lang_choice items
    tableStyle := itemsTableStyle primary_color font_name
    paymentBlock :=
      if data.payment_terms ≠ "" then
        some ("<b>" ++ shape (lang_dict "payment_terms") ++ "</b>:",
              shape data.payment_terms)
      else none
    deliveryBlock :=
      if data.delivery_terms ≠ "" then
        some ("<b>" ++ shape (lang_dict "delivery_terms") ++ "</b>:",
              shape data.delivery_terms)
      else none
    acceptBlock :=
      if data.accept_checks then
        some (acceptChecksLine reshape display
          (shape (lang_dict "accept_checks")) lang_choice)
      else none }

/-- The download-button handler of `main`, src/app.py lines 511-528:
with zero items it shows a per-language error and never renders;
otherwise it re-generates the PDF and offers it under the file name
`f"{doc_type}_{invoice_number}.pdf"`. -/
def downloadAction (reshape display : String → String) (data : DocData)
    (items : List Item) (lang_dict : String → String)
    (primary_color lang_choice nowHM : String) :
    Except String (String × PdfStory) :=
  if items.length = 0 then
    .error (if lang_choice = "en" then "Please add at least one item."
            else if lang_choice = "fr" then
              "Veuillez ajouter au moins un article."
            else "الرجاء إضافة عنصر واحد على الأقل.")
  else
    .ok (data.doc_type ++ "_" ++ data.invoice_number ++ ".pdf",
         create_modern_invoice_pdf reshape display data items lang_dict
           primary_color lang_choice nowHM)

/-- The add-item form of `main`, src/app.py lines 446-459.  The bounds
come from the widgets: `st.number_input` with `min_value=1` for the
quantity and `min_value=0.0` for the unit price and VAT rate only
yields values at or above the minimum, so an item is produced exactly
when the entered values satisfy those bounds. -/
def formAddItem (description : String) (quantity : Int)
    (unit_price vat_rate : ℚ) : Option Item :=
  if 1 ≤ quantity ∧ 0 ≤ unit_price ∧ 0 ≤ vat_rate then
    some ⟨description, quantity, unit_price, vat_rate⟩
  else none

/-- A concrete data record (the form's supplier defaults of src/app.py
lines 409-413 with a minimal customer), used to evaluate the pipeline at
concrete inputs. -/
def sampleData : DocData :=
  { doc_type := "Invoice"
    supplier_name := "Neuratech Solutions"
    supplier_address := "30 rue 6667"
    supplier_tax_id := "122344"
    supplier_mobile := ""
    supplier_email := ""
    logo := false
    customer_name := "Acme"
    customer_address := "1 Road"
    invoice_number := "0001"
    invoice_date := some "01/01/2025"
    invoice_due_date := none
    payment_terms := ""
    delivery_terms := ""
    accept_checks := false }

/-- Whether an `Except` result is a success. -/
def exceptIsOk {ε α : Type _} : Except ε α → Bool
  | .ok _ => true
  | .error _ => false

/-- The label keys the claim enumerates as "the closed label set
enumerated by the composer". -/
def claimedLabelKeys : List String :=
  ["document_type", "number", "date", "due_date", "from", "to",
   "tax_id", "mobile", "email", "details", "description", "quantity",
   "unit_price", "vat_rate", "vat_amount", "total", "subtotal",
   "total_vat", "payment_terms", "delivery_terms", "accept_checks",
   "services_products"]

/-- The claimed key set with "document_type" replaced by the literal
dictionary key the source defines and looks up,
"document_type_label". -/
def amendedLabelKeys : List String :=
  ["document_type_label", "number", "date", "due_date", "from", "to",
   "tax_id", "mobile", "email", "details", "description", "quantity",
   "unit_price", "vat_rate", "vat_amount", "total", "subtotal",
   "total_vat", "payment_terms", "delivery_terms", "accept_checks",
   "services_products"]

/-- Agreement of two composed stories on every block except the header
(the header embeds the render-time clock string). -/
def agreesExceptHeader (a b : PdfStory) : Prop :=
  a.font_name = b.font_name ∧ a.supplierHtml = b.supplierHtml ∧
  a.customerHtml = b.customerHtml ∧ a.detailsLabel = b.detailsLabel ∧
  a.itemsData = b.itemsData ∧ a.tableStyle = b.tableStyle ∧
  a.paymentBlock = b.paymentBlock ∧ a.deliveryBlock = b.deliveryBlock ∧
  a.acceptBlock = b.acceptBlock

/-- The lemma behind the accept-checks line: the literal "Yes" passes
through `reshape_if_arabic` unchanged, for non-Arabic languages by the
as-is branch, and for Arabic whenever the external shapers leave the
Arabic-free string "Yes" unchanged. -/
theorem reshape_yes (reshape display : String → String) (lang : String)
    (hyes : lang = "ar" → display (reshape "Yes") = "Yes") :
    reshape_if_arabic reshape display "Yes" lang = "Yes" := by
  unfold reshape_if_arabic
  by_cases h : lang = "ar"
  · rw [if_pos ⟨h, by decide⟩]
    exact hyes h
  · rw [if_neg (by simp [h])]

/-- C1: for every line item the computed subtotal is quantity × unit
price, the VAT amount is subtotal × rate/100 and the line total their
sum; the aggregates are the sums of the per-line values; and for the
item (quantity 3, unit price 10.00, VAT rate 19) the displayed values
are 30.00, 5.70 and 35.70, and for two such items 60.00, 11.40 and
71.40. -/
theorem c1_financial_correctness :
    (∀ it : Item,
      (computeLine it).1 = (it.quantity : ℚ) * it.unit_price ∧
      (computeLine it).2.1 = (computeLine it).1 * (it.vat_rate / 100) ∧
      (computeLine it).2.2 = (computeLine it).1 + (computeLine it).2.1) ∧
    (∀ items : List Item,
      total_without_vat items =
        (items.map (fun it => (computeLine it).1)).sum ∧
      total_vat items =
        (items.map (fun it => (computeLine it).2.1)).sum ∧
      grand_total items = total_without_vat items + total_vat items) ∧
    (formatTwo (computeLine ⟨"", 3, 10, 19⟩).1 = "30.00" ∧
     formatTwo (computeLine ⟨"", 3, 10, 19⟩).2.1 = "5.70" ∧
     formatTwo (computeLine ⟨"", 3, 10, 19⟩).2.2 = "35.70" ∧
     formatTwo (total_without_vat [⟨"", 3, 10, 19⟩, ⟨"", 3, 10, 19⟩]) =
       "60.00" ∧
     formatTwo (total_vat [⟨"", 3, 10, 19⟩, ⟨"", 3, 10, 19⟩]) = "11.40" ∧
     formatTwo (grand_total [⟨"", 3, 10, 19⟩, ⟨"", 3, 10, 19⟩]) =
       "71.40") :=
  ⟨fun _ => ⟨rfl, rfl, rfl⟩, fun _ => ⟨rfl, rfl, rfl⟩, by decide⟩

/-- C3: shaping with a non-Arabic (LTR) language returns the input
unchanged, and for every language an input whose stripped form is empty
(empty or whitespace-only) is returned unchanged. -/
theorem c3_ltr_and_blank_noop (reshape display : String → String)
    (text lang : String) :
    (lang ≠ "ar" → reshape_if_arabic reshape display text lang = text) ∧
    (pyStrip text = "" → reshape_if_arabic reshape display text lang = text) := by
  constructor
  · intro h
    simp [reshape_if_arabic, h]
  · intro h
    simp [reshape_if_arabic, h]

/-- Witness for C3: concrete no-op cases, an English string and a
whitespace-only Arabic-language string. -/
theorem c3_ltr_and_blank_noop_witness :
    reshape_if_arabic id id "hello" "en" = "hello" ∧
    reshape_if_arabic id id "  " "ar" = "  " :=
  ⟨(c3_ltr_and_blank_noop id id "hello" "en").1 (by decide),
   (c3_ltr_and_blank_noop id id "  " "ar").2 (by decide)⟩

/-- C4 counterexample: the displayed strings are produced by `"%.2f"`
formatting of the binary double, which rounds the representable tie
0.125 to even — the unit-price cell of an item priced 0.125 displays
"0.12" — while the claimed round-half-away-from-zero would display
"0.13". -/
theorem c4_counterexample :
    itemRow id id "en" ⟨"x", 1, 1/8, 0⟩ =
      ["x", "1", "0.12", "0.0%", "0.00", "0.12"] ∧
    formatTwoHalfAway (1/8) = "0.13" ∧
    formatTwo (1/8) ≠ formatTwoHalfAway (1/8) := by decide

/-- C4 amended: intermediate values are indeed never rounded — the
aggregates accumulate the exact per-line values, so two VAT amounts
displaying "0.00" each can yield an aggregate displaying "0.01" — but
each final displayed string rounds as CPython formats the underlying
binary double: representable ties go to even (0.125 displays "0.12",
0.625 displays "0.62"), not away from zero. -/
theorem c4_amended :
    (∀ (it : Item) (items : List Item),
      total_vat (it :: items) = (computeLine it).2.1 + total_vat items ∧
      total_without_vat (it :: items) =
        (computeLine it).1 + total_without_vat items) ∧
    formatTwo (computeLine ⟨"", 1, 1/10, 4⟩).2.1 = "0.00" ∧
    formatTwo (total_vat [⟨"", 1, 1/10, 4⟩, ⟨"", 1, 1/10, 4⟩]) = "0.01" ∧
    formatTwo (1/8) = "0.12" ∧
    formatTwo (5/8) = "0.62" := by
  refine ⟨fun it items => ⟨?_, ?_⟩, by decide, by decide, by decide, by decide⟩
  · simp [total_vat]
  · simp [total_without_vat]

/-- C2 counterexample: with every listed input identical (record, item
list, dictionary, accent color, language), two invocations at different
clock minutes produce different composed output — the header embeds
`datetime.now().strftime("%H:%M")`, so the output is not a function of
the listed inputs alone. -/
theorem c2_counterexample :
    create_modern_invoice_pdf id id sampleData [] (dictOf LANGUAGES_en)
      "#1a237e" "en" "10:00" ≠
    create_modern_invoice_pdf id id sampleData [] (dictOf LANGUAGES_en)
      "#1a237e" "en" "10:01" := by
  intro h
  exact absurd (congrArg PdfStory.headerHtml h) (by decide)

/-- C2 amended: the composition is a pure function of the inputs
together with the render-time clock string: two invocations with
identical inputs agree on every composed block except the header (which
embeds the clock), and agree everywhere once the clock string is also
the same. -/
theorem c2_amended (reshape display : String → String) (data : DocData)
    (items : List Item) (lang_dict : String → String)
    (primary_color lang_choice t1 t2 : String) :
    agreesExceptHeader
      (create_modern_invoice_pdf reshape display data items lang_dict
        primary_color lang_choice t1)
      (create_modern_invoice_pdf reshape display data items lang_dict
        primary_color lang_choice t2) ∧
    (t1 = t2 →
      create_modern_invoice_pdf reshape display data items lang_dict
        primary_color lang_choice t1 =
      create_modern_invoice_pdf reshape display data items lang_dict
        primary_color lang_choice t2) :=
  ⟨⟨rfl, rfl, rfl, rfl, rfl, rfl, rfl, rfl, rfl⟩, fun h => by rw [h]⟩

/-- Witness for C2 amended: a concrete invocation repeated with the
same clock string yields the identical story. -/
theorem c2_amended_witness :
    create_modern_invoice_pdf id id sampleData [] (dictOf LANGUAGES_en)
      "#1a237e" "en" "10:00" =
    create_modern_invoice_pdf id id sampleData [] (dictOf LANGUAGES_en)
      "#1a237e" "en" "10:00" :=
  (c2_amended id id sampleData [] (dictOf LANGUAGES_en) "#1a237e" "en"
    "10:00" "10:00").2 rfl

/-- C5: composing with an empty item list still yields the three totals
rows, each displaying "0.00", and the download handler with zero items
returns an error for every language choice instead of a rendered
document. -/
theorem c5_zero_items (reshape display : String → String)
    (lang_dict : String → String) (lang : String) (data : DocData)
    (primary_color nowHM : String) :
    buildItemsData reshape display lang_dict lang [] =
      [[reshape_if_arabic reshape display (lang_dict "description") lang,
        reshape_if_arabic reshape display (lang_dict "quantity") lang,
        reshape_if_arabic reshape display (lang_dict "unit_price") lang,
        reshape_if_arabic reshape display (lang_dict "vat_rate") lang,
        reshape_if_arabic reshape display (lang_dict "vat_amount") lang,
        reshape_if_arabic reshape display (lang_dict "total") lang],
       ["", "", "", "",
        reshape_if_arabic reshape display (lang_dict "subtotal") lang ++ ":",
        "0.00"],
       ["", "", "", "",
        reshape_if_arabic reshape display (lang_dict "total_vat") lang ++ ":",
        "0.00"],
       ["", "", "", "",
        reshape_if_arabic reshape display (lang_dict "total") lang ++ ":",
        "0.00"]] ∧
    (∀ lang_choice : String, ∃ msg,
      downloadAction reshape display data [] lang_dict primary_color
        lang_choice nowHM = .error msg) :=
  ⟨rfl, fun _ => ⟨_, rfl⟩⟩

/-- C6 counterexample: an item violating every bound (quantity -1, unit
price -2, VAT rate -3) is composed as-is — the pipeline emits its row
with the negative values verbatim and the download handler succeeds; no
rejection happens anywhere and nothing is clamped. -/
theorem c6_counterexample :
    (buildItemsData id id (dictOf LANGUAGES_en) "en"
        [⟨"x", -1, -2, -3⟩])[1]? =
      some ["x", "-1", "-2.00", "-3.0%", "-0.06", "1.94"] ∧
    exceptIsOk (downloadAction id id sampleData [⟨"x", -1, -2, -3⟩]
      (dictOf LANGUAGES_en) "#1a237e" "en" "10:00") = true := by
  exact ⟨by decide, rfl⟩

/-- C6 amended: the quantity/price/rate bounds are enforced only by the
add-item form's widgets — an item it admits satisfies quantity ≥ 1 and
non-negative price and rate, and entries violating the bounds produce
no item — while the composer itself never validates: it composes any
item list, of whatever values, into rows. -/
theorem c6_amended :
    (∀ (d : String) (q : Int) (p r : ℚ) (it : Item),
      formAddItem d q p r = some it →
      1 ≤ it.quantity ∧ 0 ≤ it.unit_price ∧ 0 ≤ it.vat_rate) ∧
    (∀ (d : String) (q : Int) (p r : ℚ),
      ¬(1 ≤ q ∧ 0 ≤ p ∧ 0 ≤ r) → formAddItem d q p r = none) ∧
    (∀ (reshape display : String → String) (lang_dict : String → String)
        (lang : String) (items : List Item),
      (buildItemsData reshape display lang_dict lang items).length =
        items.length + 4) := by
  refine ⟨?_, ?_, ?_⟩
  · intro d q p r it h
    unfold formAddItem at h
    split at h
    case isTrue hc =>
      simp only [Option.some.injEq] at h
      subst h
      exact ⟨hc.1, hc.2.1, hc.2.2⟩
    case isFalse hc =>
      exact Option.noConfusion h
  · intro d q p r hneg
    unfold formAddItem
    rw [if_neg hneg]
  · intro reshape display lang_dict lang items
    simp [buildItemsData]

/-- Witness for C6 amended: the form admits the item ("x", 2, 3, 4) and
that item satisfies the bounds. -/
theorem c6_amended_witness :
    1 ≤ (Item.mk "x" 2 3 4).quantity ∧
      0 ≤ (Item.mk "x" 2 3 4).unit_price ∧
      0 ≤ (Item.mk "x" 2 3 4).vat_rate :=
  c6_amended.1 "x" 2 3 4 (Item.mk "x" 2 3 4) (by decide)

/-- C7 counterexample: for a one-item table (5 rows: header, one data
row, three totals rows) the GRID command — written over rows 0 to -2 —
covers the header row 0 and the totals rows 2 and 3 (subtotal and total
VAT), contradicting "grid on data rows only, not on the three trailing
totals rows". -/
theorem c7_counterexample :
    styleHasOnRow StyleCmd.isGrid (itemsTableStyle "#1a237e" "Helvetica")
      5 0 = true ∧
    styleHasOnRow StyleCmd.isGrid (itemsTableStyle "#1a237e" "Helvetica")
      5 2 = true ∧
    styleHasOnRow StyleCmd.isGrid (itemsTableStyle "#1a237e" "Helvetica")
      5 3 = true ∧
    (buildItemsData id id (dictOf LANGUAGES_en) "en"
      [⟨"x", 1, 1, 0⟩]).length = 5 := by
  refine ⟨by decide, by decide, by decide, by decide⟩

/-- C7 amended: in a composed table of n items (n+4 rows), the header
row keeps the accent background and whitesmoke text; the grid covers
every row except the last — header, data rows, and the subtotal and
total-VAT rows, excluding only the grand-total row; and the accent rule
(LINEABOVE) sits exactly at the first totals row. -/
theorem c7_amended (primary_color font_name : String) (n r : ℕ) :
    (styleHasOnRow StyleCmd.isGrid
        (itemsTableStyle primary_color font_name) (n+4) r = true ↔
      r ≤ n + 2) ∧
    (styleHasOnRow (StyleCmd.isBackgroundColored primary_color)
        (itemsTableStyle primary_color font_name) (n+4) r = true ↔
      r = 0) ∧
    (styleHasOnRow (StyleCmd.isTextColored "whitesmoke")
        (itemsTableStyle primary_color font_name) (n+4) r = true ↔
      r = 0) ∧
    (styleHasOnRow StyleCmd.isLineAbove
        (itemsTableStyle primary_color font_name) (n+4) r = true ↔
      r = n + 1) := by
  refine ⟨?_, ?_, ?_, ?_⟩ <;>
    simp [styleHasOnRow, itemsTableStyle, StyleCmd.appliesToRow,
      StyleCmd.rowSpan, resolveIdx, StyleCmd.isGrid, StyleCmd.isLineAbove,
      StyleCmd.isBackgroundColored, StyleCmd.isTextColored] <;>
    omega

/-- C8 counterexample: the case transformation is not skipped for the
Arabic language — `.upper()` is applied to the shaped title
unconditionally.  With the doc-type "invoice" under the Arabic language
(both shaping libraries are the identity on this Arabic-free string),
the placed title is "INVOICE", not the shaped title as-is. -/
theorem c8_counterexample :
    docTitleDisplayed id id "invoice" "ar" = "INVOICE" ∧
    reshape_if_arabic id id "invoice" "ar" = "invoice" ∧
    docTitleDisplayed id id "invoice" "ar" ≠
      reshape_if_arabic id id "invoice" "ar" := by
  refine ⟨by decide, by decide, by decide⟩

/-- C8 amended: the title is upper-cased unconditionally for every
language; whenever upper-casing the shaped title is vacuous — as for
the in-app Arabic doc-type options, whose letters have no case — the
title is placed equal to the shaped title as-is. -/
theorem c8_amended (reshape display : String → String)
    (doc_type lang : String) :
    docTitleDisplayed reshape display doc_type lang =
      pyUpper (reshape_if_arabic reshape display doc_type lang) ∧
    (pyUpper (reshape_if_arabic reshape display doc_type lang) =
        reshape_if_arabic reshape display doc_type lang →
      docTitleDisplayed reshape display doc_type lang =
        reshape_if_arabic reshape display doc_type lang) :=
  ⟨rfl, fun h => h⟩

/-- Witness for C8 amended: with shapers producing the Arabic title
"فاتورة", upper-casing is vacuous and the placed title equals the
shaped one. -/
theorem c8_amended_witness :
    docTitleDisplayed (fun _ => "فاتورة") (fun s => s) "فاتورة" "ar" =
      reshape_if_arabic (fun _ => "فاتورة") (fun s => s) "فاتورة" "ar" :=
  (c8_amended (fun _ => "فاتورة") (fun s => s) "فاتورة" "ar").2 (by decide)

/-- C9 counterexample: the claim's key "document_type" is absent from
all three dictionaries — the source's literal key is
"document_type_label". -/
theorem c9_counterexample :
    "document_type" ∈ claimedLabelKeys ∧
    LANGUAGES_en.lookup "document_type" = none ∧
    LANGUAGES_fr.lookup "document_type" = none ∧
    LANGUAGES_ar.lookup "document_type" = none := by
  refine ⟨by decide, by decide, by decide, by decide⟩

/-- C9 amended: with "document_type" read as the source's literal key
"document_type_label", every supported dictionary maps every key of the
set to a non-empty string. -/
theorem c9_amended :
    ∀ l ∈ LANGUAGES, ∀ k ∈ amendedLabelKeys,
      ((l.2.lookup k).getD "") ≠ "" := by decide

/-- Witness for C9 amended: the English dictionary's "subtotal" entry
is non-empty. -/
theorem c9_amended_witness :
    (((("en", LANGUAGES_en) :
        String × List (String × String)).2.lookup "subtotal").getD "") ≠
      "" :=
  c9_amended ("en", LANGUAGES_en) (by decide) "subtotal" (by decide)

/-- C10: whenever the accept-checks flag is set, the emitted affirmation
paragraph ends with the literal English "Yes" for every language choice
— no translation is substituted — granted that the shaping libraries
leave the Arabic-free string "Yes" unchanged (they are the identity on
it). -/
theorem c10_accept_checks_yes (reshape display : String → String)
    (data : DocData) (items : List Item) (lang_dict : String → String)
    (primary_color lang nowHM : String)
    (hacc : data.accept_checks = true)
    (hyes : lang = "ar" → display (reshape "Yes") = "Yes") :
    ∃ pre,
      (create_modern_invoice_pdf reshape display data items lang_dict
        primary_color lang nowHM).acceptBlock = some (pre ++ "Yes") := by
  refine ⟨"<b>" ++
    reshape_if_arabic reshape display (lang_dict "accept_checks") lang ++
    "</b> ", ?_⟩
  have h := reshape_yes reshape display lang hyes
  simp [create_modern_invoice_pdf, acceptChecksLine, hacc, h]

/-- Witness for C10: a concrete Arabic render with the flag set emits
an affirmation line ending in "Yes". -/
theorem c10_accept_checks_yes_witness :
    ∃ pre,
      (create_modern_invoice_pdf id id
        { sampleData with accept_checks := true } [] (dictOf LANGUAGES_ar)
        "#1a237e" "ar" "10:00").acceptBlock = some (pre ++ "Yes") :=
  c10_accept_checks_yes id id { sampleData with accept_checks := true }
    [] (dictOf LANGUAGES_ar) "#1a237e" "ar" "10:00" rfl (fun _ => rfl)

end InvoiceGen
